import Mathlib

/-!
Verification of the scoring / persistence core of the Meme Coin Launch
Studio application (`meme_scoring_app.py`).

The Python code is shallowly embedded: text is `List Char`, Python string
operations (`lower`, `strip`, substring `in`) are executable Lean
functions on character lists, machine integers are `Int`, the float
computation in `compute_meme_readiness` is carried out exactly in `ℚ`
(ties at `.5` are impossible for this formula — its value is always an
integer multiple of `1/3` — so the rounding mode cannot matter and exact
rational rounding agrees with the source's floating point rounding), and
the Streamlit button handlers that mutate the idea vault are embedded as
pure functions from the old store (plus the handler's inputs) to the new
store.
-/

namespace MemeApp

/-- Text is modelled as a list of characters. -/
abbrev Str := List Char

/-- Python `s.lower()` (ASCII case folding; every keyword the app matches
against is ASCII). -/
def lowerStr (s : Str) : Str := s.map Char.toLower

/-- Python substring containment `pat in text`. -/
def containsSub (text pat : Str) : Bool :=
  text.tails.any (fun t => pat.isPrefixOf t)

/-- Python `s.strip()`: drop whitespace from both ends. -/
def stripStr (s : Str) : Str :=
  ((s.dropWhile Char.isWhitespace).reverse.dropWhile Char.isWhitespace).reverse

/-- The source's local helper `clamp(x, lo=0, hi=5) = max(lo, min(hi, x))`. -/
def clamp (x : Int) : Int := max 0 (min 5 x)

/-- Source function `rate_score` (meme_scoring_app.py lines 36–44): tier from total score. -/
def rate_score (score : Int) : String :=
  if score ≥ 32 then "S‑Tier"
  else if score ≥ 28 then "A‑Tier"
  else if score ≥ 22 then "B‑Tier"
  else "Weak"

/-- The 8 fixed criteria of the rubric, in the display order of the
score dictionary built at lines 138–147 of the source. -/
inductive Criterion where
  | conceptClarity
  | remixability
  | culturalBandwidth
  | replyBait
  | conflictTension
  | statusSignaling
  | narrativeHook
  | characterStrength
deriving DecidableEq, Repr

/-- The rubric's fixed display order of the 8 criteria. -/
def criteriaOrder : List Criterion :=
  [.conceptClarity, .remixability, .culturalBandwidth, .replyBait,
   .conflictTension, .statusSignaling, .narrativeHook, .characterStrength]

/-- The exact dictionary key used for each criterion in the source
(the hyphen in `Reply‑Bait Potential` is the source's U+2011). -/
def keyOf : Criterion → String
  | .conceptClarity => "Concept Clarity"
  | .remixability => "Remixability"
  | .culturalBandwidth => "Cultural Bandwidth"
  | .replyBait => "Reply‑Bait Potential"
  | .conflictTension => "Conflict / Tension"
  | .statusSignaling => "Status Signaling"
  | .narrativeHook => "Narrative Hook"
  | .characterStrength => "Character / Symbol Strength"

/-- A complete assignment of a score to each of the 8 criteria: the
`scores` dictionary of the source, whose key set is always exactly the
8 fixed keys. -/
structure ScoreSet where
  conceptClarity : Int
  remixability : Int
  culturalBandwidth : Int
  replyBait : Int
  conflictTension : Int
  statusSignaling : Int
  narrativeHook : Int
  characterStrength : Int
deriving DecidableEq, Repr

/-- Look up one criterion's score. -/
def ScoreSet.get (s : ScoreSet) : Criterion → Int
  | .conceptClarity => s.conceptClarity
  | .remixability => s.remixability
  | .culturalBandwidth => s.culturalBandwidth
  | .replyBait => s.replyBait
  | .conflictTension => s.conflictTension
  | .statusSignaling => s.statusSignaling
  | .narrativeHook => s.narrativeHook
  | .characterStrength => s.characterStrength

/-- The score dictionary as the ordered key/value pair list built at
lines 138–147 of the source (Python dicts preserve insertion order). -/
def ScoreSet.toPairs (s : ScoreSet) : List (String × Int) :=
  [("Concept Clarity", s.conceptClarity),
   ("Remixability", s.remixability),
   ("Cultural Bandwidth", s.culturalBandwidth),
   ("Reply‑Bait Potential", s.replyBait),
   ("Conflict / Tension", s.conflictTension),
   ("Status Signaling", s.statusSignaling),
   ("Narrative Hook", s.narrativeHook),
   ("Character / Symbol Strength", s.characterStrength)]

/-- All 8 scores of the set lie in the rubric range `[0, 5]`. -/
def ScoreSet.Valid (s : ScoreSet) : Prop :=
  (0 ≤ s.conceptClarity ∧ s.conceptClarity ≤ 5) ∧
  (0 ≤ s.remixability ∧ s.remixability ≤ 5) ∧
  (0 ≤ s.culturalBandwidth ∧ s.culturalBandwidth ≤ 5) ∧
  (0 ≤ s.replyBait ∧ s.replyBait ≤ 5) ∧
  (0 ≤ s.conflictTension ∧ s.conflictTension ≤ 5) ∧
  (0 ≤ s.statusSignaling ∧ s.statusSignaling ≤ 5) ∧
  (0 ≤ s.narrativeHook ∧ s.narrativeHook ≤ 5) ∧
  (0 ≤ s.characterStrength ∧ s.characterStrength ≤ 5)

instance (s : ScoreSet) : Decidable s.Valid := by
  unfold ScoreSet.Valid; infer_instance

/-- Total score `sum(scores.values())`, the 40-point total. -/
def totalScore (s : ScoreSet) : Int :=
  (s.toPairs.map Prod.snd).sum

/-- Source function `compute_meme_readiness` (lines 58–70), with the float arithmetic
carried out exactly in `ℚ` and Python's `round` as `round` on `ℚ`
(no tie can occur, see the file header). -/
def compute_meme_readiness (scores : ScoreSet) : Int :=
  let mf : ℚ :=
    ((scores.conceptClarity + scores.remixability + scores.culturalBandwidth : Int) : ℚ)
  let se : ℚ :=
    ((scores.replyBait + scores.conflictTension + scores.statusSignaling : Int) : ℚ)
  let aa : ℚ :=
    ((scores.narrativeHook + scores.characterStrength : Int) : ℚ)
  let mf_norm := mf / 15
  let se_norm := se / 15
  let aa_norm := aa / 10
  let readiness := 0.4 * se_norm + 0.3 * mf_norm + 0.3 * aa_norm
  round (readiness * 100)

/-- The Concept Clarity bonus phrases (line 94 of the source). -/
def clarity_phrases : List Str :=
  ["coin for", "this coin is for", "official coin of"].map String.toList

/-- Keyword list `remix_words` (lines 98–99). -/
def remix_words : List Str :=
  ["dev", "developer", "applicant", "visa", "whale", "union",
   "boss", "founder", "worker", "student", "rejected", "hiring"].map String.toList

/-- Keyword list `global_pain_words` (lines 104–105). -/
def global_pain_words : List Str :=
  ["visa", "job", "salary", "boss", "tax", "rent", "queue",
   "rejected", "ghosted", "work", "burnout"].map String.toList

/-- Keyword list `reply_words` (line 110). -/
def reply_words : List Str :=
  ["story", "confession", "share", "reply", "tell", "chat"].map String.toList

/-- Keyword list `conflict_words` (lines 115–116). -/
def conflict_words : List Str :=
  ["boss", "founder", "hr", "ats", "embassy", "government",
   "landlord", "system", "rejected", "ghosted", "underpaid"].map String.toList

/-- Keyword list `status_words` (lines 121–122). -/
def status_words : List Str :=
  ["dev", "developer", "applicant", "founder", "immigrant",
   "worker", "survivor", "union", "community"].map String.toList

/-- Keyword list `hook_words` (lines 127–128). -/
def hook_words : List Str :=
  ["finally", "official", "revolution", "union", "survivor",
   "economy", "queue", "launch", "token"].map String.toList

/-- Keyword list `symbol_words` (lines 133–134). -/
def symbol_words : List Str :=
  ["turtle", "whale", "ghost", "cop", "battery", "butt",
   "applicant", "dev", "robot", "queue"].map String.toList

/-- Python `sum(w in text for w in words)`: each keyword contributes 1
if it occurs in `text`, independently of how often it occurs. -/
def boolSum (text : Str) (words : List Str) : Int :=
  (words.map (fun w => if containsSub text w then (1 : Int) else 0)).sum

/-- Source function `heuristic_auto_score` (lines 74–148): keyword-driven auto scoring
over the lower-cased concatenation `name + " " + narrative`; the length
thresholds of Concept Clarity read `len(narrative)`. -/
def heuristic_auto_score (name narrative : Str) : ScoreSet :=
  let text := lowerStr (name ++ [' '] ++ narrative)
  let length := narrative.length
  let concept_clarity : Int :=
    (if length < 60 then 2 else if length < 250 then 4 else 3) +
    (if clarity_phrases.any (fun k => containsSub text k) then 1 else 0)
  let remixability := clamp (2 + boolSum text remix_words)
  let cultural_bandwidth := clamp (2 + boolSum text global_pain_words)
  let reply_bait := clamp (2 + boolSum text reply_words)
  let conflict_tension := clamp (1 + boolSum text conflict_words)
  let status_signaling := clamp (2 + boolSum text status_words)
  let narrative_hook := clamp (2 + boolSum text hook_words)
  let character_strength := clamp (2 + boolSum text symbol_words)
  { conceptClarity := clamp concept_clarity,
    remixability := remixability,
    culturalBandwidth := cultural_bandwidth,
    replyBait := reply_bait,
    conflictTension := conflict_tension,
    statusSignaling := status_signaling,
    narrativeHook := narrative_hook,
    characterStrength := character_strength }

/-- The readiness formula in the words of the specification:
`round(100 * (0.4*(se/15) + 0.3*(mf/15) + 0.3*(aa/10)))` with `mf`,
`se`, `aa` the Meme Foundation, Social Energy and Attention Anchors
bucket sums. -/
def readinessSpecFormula (s : ScoreSet) : Int :=
  let mf : ℚ :=
    ((s.conceptClarity + s.remixability + s.culturalBandwidth : Int) : ℚ)
  let se : ℚ :=
    ((s.replyBait + s.conflictTension + s.statusSignaling : Int) : ℚ)
  let aa : ℚ :=
    ((s.narrativeHook + s.characterStrength : Int) : ℚ)
  round ((100 : ℚ) * ((4 / 10) * (se / 15) + (3 / 10) * (mf / 15) + (3 / 10) * (aa / 10)))

/-- Modelled from the words of the specification: the Concept Clarity
score with the length thresholds applied to the combined
`name + " " + narrative` text (the source instead reads the length of
the narrative alone). -/
def conceptClarityClaimed (name narrative : Str) : Int :=
  let combined := name ++ [' '] ++ narrative
  let text := lowerStr combined
  (if combined.length < 60 then 2 else if combined.length < 250 then 4 else 3) +
  (if clarity_phrases.any (fun k => containsSub text k) then 1 else 0)

/-- Number of keywords of `words` that occur as a substring of `text`,
each keyword counted at most once. -/
def distinctHits (text : Str) (words : List Str) : Int :=
  ((words.filter (fun w => containsSub text w)).length : Int)

/-- The fixed list of the 8 criterion keys, in display order. -/
def criterionKeys : List String :=
  ["Concept Clarity", "Remixability", "Cultural Bandwidth",
   "Reply‑Bait Potential", "Conflict / Tension", "Status Signaling",
   "Narrative Hook", "Character / Symbol Strength"]

/-- Source expression `weak_dims` (line 370): the keys whose score is at most 2, in the
order of the score dictionary. -/
def weak_dims (s : ScoreSet) : List String :=
  (s.toPairs.filter (fun p => p.2 ≤ 2)).map Prod.fst

/-- The message written when no dimension is weak (line 372). -/
def solidMessage : String :=
  "This idea looks structurally solid. Focus on launch timing, distribution, and execution."

/-- The fixed remediation suggestion written for each weak dimension by
the if/elif chain at lines 375–390 (the chain has no final else and the
8 keys cover every dimension that can occur, so the extra branch below
is unreachable on the chain's domain). -/
def suggestionFor (dim : String) : String :=
  if dim = "Concept Clarity" then
    "- **Concept Clarity:** Reduce your narrative to one brutal, obvious sentence anyone can repeat."
  else if dim = "Remixability" then
    "- **Remixability:** Design 5+ meme formats, screenshots, or rituals people can reuse easily."
  else if dim = "Cultural Bandwidth" then
    "- **Cultural Bandwidth:** Swap niche references for universal pains (money, work, rejection, bureaucracy)."
  else if dim = "Reply‑Bait Potential" then
    "- **Reply‑Bait Potential:** Add confession prompts, screenshot prompts, or pain‑sharing prompts to the story."
  else if dim = "Conflict / Tension" then
    "- **Conflict / Tension:** Introduce a clear villain: boss, system, whale, embassy, landlord, etc."
  else if dim = "Status Signaling" then
    "- **Status Signaling:** Make holding the coin signal identity (dev, applicant, survivor, degen, etc.)."
  else if dim = "Narrative Hook" then
    "- **Narrative Hook:** Write 5 fake headlines until one feels viral and punchy."
  else if dim = "Character / Symbol Strength" then
    "- **Character / Symbol Strength:** Attach a simple, iconic mascot people can draw, screenshot, and spam."
  else ""

/-- The suggestion block of the Score tab (lines 370–390): the single
solid message when no dimension is weak, otherwise one suggestion line
per weak dimension. -/
def weakSuggestions (s : ScoreSet) : List String :=
  if weak_dims s = [] then [solidMessage]
  else (weak_dims s).map suggestionFor

/-- A persisted idea record, with the fields written by the Save /
Update handler (lines 406–417). The checklist is the record's mapping
from checklist-item name to flag. -/
structure Idea where
  name : Str
  ticker : Str
  narrative : Str
  scores : ScoreSet
  total_score : Int
  tier : String
  meme_readiness : Int
  notes : Str
  timestamp : Str
  checklist : List (String × Bool)
deriving DecidableEq, Repr

/-- The name comparison used by `find_idea_by_name` and the save loop:
`idea["name"].strip().lower() == name.strip().lower()`. -/
def nameEq (a b : Str) : Bool :=
  lowerStr (stripStr a) == lowerStr (stripStr b)

/-- Source function `find_idea_by_name` (lines 235–239): the first record whose
stripped, lower-cased name matches, if any. -/
def find_idea_by_name (ideas : List Idea) (name : Str) : Option Idea :=
  ideas.find? (fun idea => nameEq idea.name name)

/-- The inputs the Save / Update handler reads from the form. -/
structure SavePayload where
  name : Str
  ticker : Str
  narrative : Str
  scores : ScoreSet
  notes : Str
  timestamp : Str
deriving DecidableEq, Repr

/-- Record `new_entry` as built at lines 405–417: total, tier and readiness are
derived from the scores and the checklist is the empty default (it is
filled only in the Launch Checklist tab). -/
def mkNewEntry (p : SavePayload) : Idea :=
  { name := p.name, ticker := p.ticker, narrative := p.narrative,
    scores := p.scores, total_score := totalScore p.scores,
    tier := rate_score (totalScore p.scores),
    meme_readiness := compute_meme_readiness p.scores,
    notes := p.notes, timestamp := p.timestamp, checklist := [] }

/-- The update-or-append loop of the Save / Update handler (lines
419–431): replace the first record whose name matches with the new
entry while keeping that record's checklist
(`{**idea, **new_entry, "checklist": idea.get("checklist", {})}`),
else append the new entry at the end. -/
def upsertIdea (ideas : List Idea) (e : Idea) : List Idea :=
  match ideas with
  | [] => [e]
  | i :: rest =>
    if nameEq i.name e.name then { e with checklist := i.checklist } :: rest
    else i :: upsertIdea rest e

/-- Number of records whose stripped lower-cased name matches `nm`. -/
def countMatch (ideas : List Idea) (nm : Str) : Nat :=
  (ideas.filter (fun i => nameEq i.name nm)).length

/-- A sample prior record for the store claims; its stored name matches
the payload name "Test" after trimming and case folding. -/
def wPrior : Idea :=
  { name := "test ".toList, ticker := [], narrative := [],
    scores := ⟨0, 0, 0, 0, 0, 0, 0, 0⟩, total_score := 0, tier := "Weak",
    meme_readiness := 0, notes := [], timestamp := "t0".toList,
    checklist := [("Narrative finalized", true)] }

/-- A sample save payload for the store claims. -/
def wPayload : SavePayload :=
  { name := "Test".toList, ticker := "T".toList, narrative := [],
    scores := ⟨3, 3, 3, 3, 3, 3, 3, 3⟩, notes := [],
    timestamp := "t1".toList }

/-- The literal clone name suffix (line 471). -/
def cloneSuffix : Str := " (Clone)".toList

/-- The Clone idea handler (lines 468–475), with the freshly generated
timestamp passed in explicitly: find the record, copy it, suffix its
name, restamp it, append it. A failed lookup is a no-op. -/
def cloneIdea (ideas : List Idea) (selected : Str) (ts : Str) : List Idea :=
  match find_idea_by_name ideas selected with
  | none => ideas
  | some i => ideas ++ [{ i with name := i.name ++ cloneSuffix, timestamp := ts }]

/-- A JSON value, as `json.load` can produce one. -/
inductive Json where
  | null
  | bool (b : Bool)
  | num (n : Int)
  | str (s : String)
  | arr (elems : List Json)
  | obj (fields : List (String × Json))

/-- The observable state of the ideas file: missing, present but not
well-formed JSON (so `json.load` raises `JSONDecodeError`), or present
with a parsed value. -/
inductive FileState where
  | absent
  | malformed (raw : String)
  | wellFormed (v : Json)

/-- The `json.load(f)` call of line 24 on an existing file: the parsed
value, or a `JSONDecodeError` for malformed content. -/
def json_load : FileState → Except String Json
  | .absent => .error "FileNotFoundError"
  | .malformed raw => .error ("JSONDecodeError: " ++ raw)
  | .wellFormed v => .ok v

/-- Source function `load_ideas` (lines 19–27): an absent file short-circuits to `[]`
(the `os.path.exists` guard), a `JSONDecodeError` is caught and yields
`[]`, and a parsed value is kept only when it is a JSON array
(`isinstance(data, list)`). The `Except` result records whether an
error escapes to the caller. -/
def load_ideas (fs : FileState) : Except String (List Json) :=
  match fs with
  | .absent => .ok []
  | fs =>
    match json_load fs with
    | .error _ => .ok []
    | .ok data =>
      .ok (match data with
        | .arr elems => elems
        | _ => [])

/-- C1: `rate_score` maps `total ≥ 32` to S‑Tier, `28 ≤ total < 32` to
A‑Tier, `22 ≤ total < 28` to B‑Tier and `total < 22` to Weak, and every
integer is mapped to one of the four tiers, so the boundaries sit exactly
at 22, 28 and 32. -/
theorem rate_score_tiers (total : Int) :
    (32 ≤ total → rate_score total = "S‑Tier") ∧
    (28 ≤ total → total < 32 → rate_score total = "A‑Tier") ∧
    (22 ≤ total → total < 28 → rate_score total = "B‑Tier") ∧
    (total < 22 → rate_score total = "Weak") ∧
    (rate_score total = "S‑Tier" ∨ rate_score total = "A‑Tier" ∨
     rate_score total = "B‑Tier" ∨ rate_score total = "Weak") := by
  unfold rate_score
  refine ⟨?_, ?_, ?_, ?_, ?_⟩
  · intro h; rw [if_pos h]
  · intro h1 h2; rw [if_neg (by omega), if_pos h1]
  · intro h1 h2; rw [if_neg (by omega), if_neg (by omega), if_pos h1]
  · intro h; rw [if_neg (by omega), if_neg (by omega), if_neg (by omega)]
  · split_ifs <;> tauto

/-- Witness for C1 at the boundary totals 21, 22, 27, 28, 31, 32, 40. -/
theorem rate_score_tiers_witness :
    rate_score 21 = "Weak" ∧ rate_score 22 = "B‑Tier" ∧
    rate_score 27 = "B‑Tier" ∧ rate_score 28 = "A‑Tier" ∧
    rate_score 31 = "A‑Tier" ∧ rate_score 32 = "S‑Tier" ∧
    rate_score 40 = "S‑Tier" :=
  ⟨(rate_score_tiers 21).2.2.2.1 (by decide),
   (rate_score_tiers 22).2.2.1 (by decide) (by decide),
   (rate_score_tiers 27).2.2.1 (by decide) (by decide),
   (rate_score_tiers 28).2.1 (by decide) (by decide),
   (rate_score_tiers 31).2.1 (by decide) (by decide),
   (rate_score_tiers 32).1 (by decide),
   (rate_score_tiers 40).1 (by decide)⟩

/-- C2: for a `ScoreSet` with all 8 scores in `[0,5]`, the readiness of
the code equals `round(100 * (0.4*(se/15) + 0.3*(mf/15) + 0.3*(aa/10)))`
over the three fixed buckets, lies in `[0,100]`, and the all-zero and
all-five score sets map to 0 and 100. -/
theorem compute_meme_readiness_spec (s : ScoreSet) (h : s.Valid) :
    compute_meme_readiness s = readinessSpecFormula s ∧
    0 ≤ compute_meme_readiness s ∧ compute_meme_readiness s ≤ 100 ∧
    compute_meme_readiness ⟨0, 0, 0, 0, 0, 0, 0, 0⟩ = 0 ∧
    compute_meme_readiness ⟨5, 5, 5, 5, 5, 5, 5, 5⟩ = 100 := by
  obtain ⟨⟨hc0, hc5⟩, ⟨hr0, hr5⟩, ⟨hb0, hb5⟩, ⟨hp0, hp5⟩,
    ⟨ht0, ht5⟩, ⟨hs0, hs5⟩, ⟨hn0, hn5⟩, ⟨hy0, hy5⟩⟩ := h
  have c0 : (0 : ℚ) ≤ (s.conceptClarity : ℚ) := by exact_mod_cast hc0
  have c5 : (s.conceptClarity : ℚ) ≤ 5 := by exact_mod_cast hc5
  have r0 : (0 : ℚ) ≤ (s.remixability : ℚ) := by exact_mod_cast hr0
  have r5 : (s.remixability : ℚ) ≤ 5 := by exact_mod_cast hr5
  have b0 : (0 : ℚ) ≤ (s.culturalBandwidth : ℚ) := by exact_mod_cast hb0
  have b5 : (s.culturalBandwidth : ℚ) ≤ 5 := by exact_mod_cast hb5
  have p0 : (0 : ℚ) ≤ (s.replyBait : ℚ) := by exact_mod_cast hp0
  have p5 : (s.replyBait : ℚ) ≤ 5 := by exact_mod_cast hp5
  have t0 : (0 : ℚ) ≤ (s.conflictTension : ℚ) := by exact_mod_cast ht0
  have t5 : (s.conflictTension : ℚ) ≤ 5 := by exact_mod_cast ht5
  have s0 : (0 : ℚ) ≤ (s.statusSignaling : ℚ) := by exact_mod_cast hs0
  have s5 : (s.statusSignaling : ℚ) ≤ 5 := by exact_mod_cast hs5
  have n0 : (0 : ℚ) ≤ (s.narrativeHook : ℚ) := by exact_mod_cast hn0
  have n5 : (s.narrativeHook : ℚ) ≤ 5 := by exact_mod_cast hn5
  have y0 : (0 : ℚ) ≤ (s.characterStrength : ℚ) := by exact_mod_cast hy0
  have y5 : (s.characterStrength : ℚ) ≤ 5 := by exact_mod_cast hy5
  refine ⟨?_, ?_, ?_, ?_, ?_⟩
  · simp only [compute_meme_readiness, readinessSpecFormula]
    congr 1
    push_cast
    ring
  · simp only [compute_meme_readiness]
    rw [round_eq]
    apply Int.floor_nonneg.mpr
    push_cast
    linarith
  · simp only [compute_meme_readiness]
    rw [round_eq, Int.floor_le_iff]
    push_cast
    linarith
  · simp only [compute_meme_readiness]
    norm_num
  · simp only [compute_meme_readiness]
    norm_num

/-- Witness for C2 at the all-five score set. -/
theorem compute_meme_readiness_spec_witness :
    compute_meme_readiness ⟨5, 5, 5, 5, 5, 5, 5, 5⟩ = 100 ∧
    0 ≤ compute_meme_readiness ⟨5, 5, 5, 5, 5, 5, 5, 5⟩ :=
  ⟨(compute_meme_readiness_spec ⟨5, 5, 5, 5, 5, 5, 5, 5⟩ (by decide)).2.2.2.2,
   (compute_meme_readiness_spec ⟨5, 5, 5, 5, 5, 5, 5, 5⟩ (by decide)).2.1⟩

/-- The per-keyword boolean sum of the source equals the count of
distinct matched keywords. -/
theorem boolSum_eq_distinctHits (text : Str) (words : List Str) :
    boolSum text words = distinctHits text words := by
  induction words with
  | nil => rfl
  | cons w ws ih =>
    by_cases h : containsSub text w = true
    · simp only [boolSum, distinctHits, List.map_cons, List.sum_cons,
        List.filter_cons, h, if_pos, List.length_cons] at ih ⊢
      push_cast
      omega
    · simp only [boolSum, distinctHits, List.map_cons, List.sum_cons,
        List.filter_cons, h, if_neg, List.length_cons, Bool.false_eq_true,
        ite_false, zero_add] at ih ⊢
      omega

/-- `clamp` always lands in `[0, 5]`. -/
theorem clamp_mem (x : Int) : 0 ≤ clamp x ∧ clamp x ≤ 5 := by
  unfold clamp; omega

/-- C3 counterexample: with a 70-character name and an empty narrative
the combined text is 71 characters long, so thresholds on the combined
length would give base 4, but the source reads `len(narrative) = 0` and
produces Concept Clarity 2. -/
theorem conceptClarity_combined_counterexample :
    (heuristic_auto_score (List.replicate 70 'a') []).conceptClarity = 2 ∧
    conceptClarityClaimed (List.replicate 70 'a') [] = 4 ∧
    (heuristic_auto_score (List.replicate 70 'a') []).conceptClarity ≠
      conceptClarityClaimed (List.replicate 70 'a') [] := by
  refine ⟨by decide, by decide, by decide⟩

/-- C3 amended: the Concept Clarity base is 2 when the length of the
narrative alone is below 60 characters, 4 when it is below 250, and 3
otherwise, plus 1 when a bonus phrase occurs as a substring of the
lower-cased concatenation of name and narrative (so a 380-character
narrative with no bonus phrase yields base 3). -/
theorem conceptClarity_narrative_length (name narrative : Str) :
    (heuristic_auto_score name narrative).conceptClarity =
      (if narrative.length < 60 then 2 else if narrative.length < 250 then 4 else 3) +
      (if clarity_phrases.any
          (fun k => containsSub (lowerStr (name ++ [' '] ++ narrative)) k)
        then 1 else 0) := by
  simp only [heuristic_auto_score]
  unfold clamp
  split_ifs <;> decide

/-- C4: each of the seven keyword-driven criteria equals its fixed base
(1 for Conflict/Tension, 2 for the six others) plus 1 per keyword of its
fixed set occurring as a substring of the lower-cased combined text,
each keyword counted at most once, clamped to `[0, 5]`. -/
theorem keyword_criteria_spec (name narrative : Str) :
    (heuristic_auto_score name narrative).remixability =
      clamp (2 + distinctHits (lowerStr (name ++ [' '] ++ narrative)) remix_words) ∧
    (heuristic_auto_score name narrative).culturalBandwidth =
      clamp (2 + distinctHits (lowerStr (name ++ [' '] ++ narrative)) global_pain_words) ∧
    (heuristic_auto_score name narrative).replyBait =
      clamp (2 + distinctHits (lowerStr (name ++ [' '] ++ narrative)) reply_words) ∧
    (heuristic_auto_score name narrative).conflictTension =
      clamp (1 + distinctHits (lowerStr (name ++ [' '] ++ narrative)) conflict_words) ∧
    (heuristic_auto_score name narrative).statusSignaling =
      clamp (2 + distinctHits (lowerStr (name ++ [' '] ++ narrative)) status_words) ∧
    (heuristic_auto_score name narrative).narrativeHook =
      clamp (2 + distinctHits (lowerStr (name ++ [' '] ++ narrative)) hook_words) ∧
    (heuristic_auto_score name narrative).characterStrength =
      clamp (2 + distinctHits (lowerStr (name ++ [' '] ++ narrative)) symbol_words) := by
  simp only [heuristic_auto_score, boolSum_eq_distinctHits]
  exact ⟨trivial, trivial, trivial, trivial, trivial, trivial, trivial⟩

/-- C5: `heuristic_auto_score` always produces the 8 fixed criterion
keys, in order, and every value (Concept Clarity included) lies in
`[0, 5]`. -/
theorem auto_score_complete_and_bounded (name narrative : Str) :
    ((heuristic_auto_score name narrative).toPairs.map Prod.fst = criterionKeys) ∧
    (∀ p ∈ (heuristic_auto_score name narrative).toPairs, 0 ≤ p.2 ∧ p.2 ≤ 5) := by
  constructor
  · rfl
  · intro p hp
    simp only [ScoreSet.toPairs, List.mem_cons, List.not_mem_nil, or_false] at hp
    rcases hp with rfl | rfl | rfl | rfl | rfl | rfl | rfl | rfl <;>
      exact clamp_mem _

/-- The weak-dimension keys are the display-ordered criteria whose score
is at most 2. -/
theorem weak_dims_eq_filter (s : ScoreSet) :
    weak_dims s = (criteriaOrder.filter (fun c => s.get c ≤ 2)).map keyOf := by
  have h0 : s.toPairs = criteriaOrder.map (fun c => (keyOf c, s.get c)) := rfl
  unfold weak_dims
  rw [h0, List.filter_map, List.map_map]
  rfl

/-- C7: the weak-dimension list holds exactly the criteria scoring at
most 2, in fixed display order; when it is nonempty every entry is
rendered through the fixed suggestion table, and when all scores are at
least 3 the single solid message is emitted instead. -/
theorem weak_dims_claim (s : ScoreSet) :
    weak_dims s = (criteriaOrder.filter (fun c => s.get c ≤ 2)).map keyOf ∧
    (weak_dims s ≠ [] → weakSuggestions s = (weak_dims s).map suggestionFor) ∧
    ((∀ c ∈ criteriaOrder, 3 ≤ s.get c) → weakSuggestions s = [solidMessage]) := by
  refine ⟨weak_dims_eq_filter s, ?_, ?_⟩
  · intro hne
    simp only [weakSuggestions, if_neg hne]
  · intro h
    have hw : weak_dims s = [] := by
      rw [weak_dims_eq_filter s]
      have hf : criteriaOrder.filter (fun c => s.get c ≤ 2) = [] := by
        rw [List.filter_eq_nil_iff]
        intro c hc
        have := h c hc
        simp only [decide_eq_true_eq]
        omega
      rw [hf]; rfl
    simp only [weakSuggestions, if_pos hw]

/-- Witness for C7: the all-threes score set yields the solid message,
the all-zeros score set yields the suggestion lines. -/
theorem weak_dims_claim_witness :
    weakSuggestions ⟨3, 3, 3, 3, 3, 3, 3, 3⟩ = [solidMessage] ∧
    weakSuggestions ⟨0, 0, 0, 0, 0, 0, 0, 0⟩ =
      (weak_dims ⟨0, 0, 0, 0, 0, 0, 0, 0⟩).map suggestionFor :=
  ⟨(weak_dims_claim ⟨3, 3, 3, 3, 3, 3, 3, 3⟩).2.2 (by decide),
   (weak_dims_claim ⟨0, 0, 0, 0, 0, 0, 0, 0⟩).2.1 (by decide)⟩

/-- The name comparison is reflexive. -/
theorem nameEq_refl (a : Str) : nameEq a a = true := by
  simp [nameEq]

/-- When no record's name matches, the save loop appends. -/
theorem upsertIdea_of_no_match (s : List Idea) (e : Idea)
    (h : ∀ i ∈ s, nameEq i.name e.name = false) :
    upsertIdea s e = s ++ [e] := by
  induction s with
  | nil => rfl
  | cons i rest ih =>
    have hi := h i (List.mem_cons_self i rest)
    simp [upsertIdea, hi, ih fun j hj => h j (List.mem_cons_of_mem _ hj)]

/-- The save loop replaces the first matching record in place, keeping
its checklist. -/
theorem upsertIdea_replace (s1 : List Idea) (i : Idea) (s2 : List Idea)
    (e : Idea) (h1 : ∀ j ∈ s1, nameEq j.name e.name = false)
    (h2 : nameEq i.name e.name = true) :
    upsertIdea (s1 ++ i :: s2) e = s1 ++ { e with checklist := i.checklist } :: s2 := by
  induction s1 with
  | nil => simp [upsertIdea, h2]
  | cons j rest ih =>
    have hj := h1 j (List.mem_cons_self j rest)
    simp [upsertIdea, hj, ih fun k hk => h1 k (List.mem_cons_of_mem _ hk)]

/-- C6: the Save / Update handler appends the new entry when no stored
name matches after trimming and case folding; when a name matches it
replaces that record in place, preserving the prior record's checklist
(the handler's entry itself always carries the default empty checklist);
and saving the same payload twice into a store without that name leaves
exactly one matching record, whose checklist is the one from the first
save. -/
theorem save_update_claim (s : List Idea) (p : SavePayload) :
    ((∀ i ∈ s, nameEq i.name p.name = false) →
      upsertIdea s (mkNewEntry p) = s ++ [mkNewEntry p]) ∧
    (∀ (s1 s2 : List Idea) (i : Idea), s = s1 ++ i :: s2 →
      (∀ j ∈ s1, nameEq j.name p.name = false) →
      nameEq i.name p.name = true →
      upsertIdea s (mkNewEntry p) =
        s1 ++ { mkNewEntry p with checklist := i.checklist } :: s2) ∧
    ((∀ i ∈ s, nameEq i.name p.name = false) →
      upsertIdea (upsertIdea s (mkNewEntry p)) (mkNewEntry p) = s ++ [mkNewEntry p] ∧
      countMatch (upsertIdea (upsertIdea s (mkNewEntry p)) (mkNewEntry p)) p.name = 1) := by
  refine ⟨?_, ?_, ?_⟩
  · intro h
    exact upsertIdea_of_no_match s _ h
  · intro s1 s2 i hs hpre hmatch
    subst hs
    exact upsertIdea_replace s1 i s2 _ hpre hmatch
  · intro h
    have h1 : upsertIdea s (mkNewEntry p) = s ++ [mkNewEntry p] :=
      upsertIdea_of_no_match s _ h
    have h2 : upsertIdea (s ++ [mkNewEntry p]) (mkNewEntry p) = s ++ [mkNewEntry p] :=
      upsertIdea_replace s (mkNewEntry p) [] (mkNewEntry p) h (nameEq_refl _)
    refine ⟨by rw [h1, h2], ?_⟩
    rw [h1, h2]
    have hs0 : s.filter (fun i => nameEq i.name p.name) = [] :=
      List.filter_eq_nil_iff.mpr (by intro a ha; simp [h a ha])
    simp [countMatch, List.filter_append, hs0, mkNewEntry, nameEq_refl]

/-- Witness for C6: replacing a matching record keeps its checklist, and
a double save into an empty store leaves exactly one record. -/
theorem save_update_claim_witness :
    upsertIdea [wPrior] (mkNewEntry wPayload) =
      [{ mkNewEntry wPayload with checklist := wPrior.checklist }] ∧
    upsertIdea (upsertIdea [] (mkNewEntry wPayload)) (mkNewEntry wPayload) =
      [mkNewEntry wPayload] ∧
    countMatch (upsertIdea (upsertIdea [] (mkNewEntry wPayload)) (mkNewEntry wPayload))
      wPayload.name = 1 :=
  ⟨(save_update_claim [wPrior] wPayload).2.1 [] [] wPrior rfl (by simp) (by decide),
   ((save_update_claim [] wPayload).2.2 (by simp)).1,
   ((save_update_claim [] wPayload).2.2 (by simp)).2⟩

/-- C8: when the selected name resolves to a record, clone appends a
copy whose name gains the literal suffix " (Clone)" and whose timestamp
is the freshly generated one, all other fields equal to the source;
when the name is not found, the store is unchanged. -/
theorem clone_claim (ideas : List Idea) (selected ts : Str) :
    (find_idea_by_name ideas selected = none → cloneIdea ideas selected ts = ideas) ∧
    (∀ i, find_idea_by_name ideas selected = some i →
      cloneIdea ideas selected ts =
        ideas ++ [{ i with name := i.name ++ cloneSuffix, timestamp := ts }]) := by
  constructor
  · intro h
    simp [cloneIdea, h]
  · intro i h
    simp [cloneIdea, h]

/-- Witness for C8: cloning a present name appends the suffixed copy;
cloning an absent name changes nothing. -/
theorem clone_claim_witness :
    cloneIdea [wPrior] "test".toList "t2".toList =
      [wPrior, { wPrior with name := wPrior.name ++ cloneSuffix, timestamp := "t2".toList }] ∧
    cloneIdea [wPrior] "nope".toList "t2".toList = [wPrior] :=
  ⟨(clone_claim [wPrior] "test".toList "t2".toList).2 wPrior (by decide),
   (clone_claim [wPrior] "nope".toList "t2".toList).1 (by decide)⟩

/-- C9: an absent ideas file and a malformed ideas file both load as the
empty collection, and no error reaches the caller. -/
theorem load_ideas_recovers (raw : String) :
    load_ideas .absent = .ok [] ∧
    load_ideas (.malformed raw) = .ok [] := by
  constructor
  · rfl
  · rfl

/-- C10: well-formed JSON that is not an array — an object, a string, a
number, a boolean or null — also loads as the empty collection rather
than as that value or an error. -/
theorem load_ideas_non_array (v : Json) (h : ∀ elems, v ≠ .arr elems) :
    load_ideas (.wellFormed v) = .ok [] := by
  cases v with
  | arr elems => exact absurd rfl (h elems)
  | null => rfl
  | bool b => rfl
  | num n => rfl
  | str s => rfl
  | obj fields => rfl

/-- Witness for C10 at a JSON object, a string and a number. -/
theorem load_ideas_non_array_witness :
    load_ideas (.wellFormed (.obj [("name", .str "X")])) = .ok [] ∧
    load_ideas (.wellFormed (.str "ideas")) = .ok [] ∧
    load_ideas (.wellFormed (.num 7)) = .ok [] :=
  ⟨load_ideas_non_array _ (fun _elems h => Json.noConfusion h),
   load_ideas_non_array _ (fun _elems h => Json.noConfusion h),
   load_ideas_non_array _ (fun _elems h => Json.noConfusion h)⟩

end MemeApp
